import Mathlib

set_option linter.unusedVariables false

/-!
Verification development for the seed-generation subsystem of
tesseract_planning (SimpleMotionPlanner and the LVS step generators).

The embedding is shallow: Eigen joint vectors become `List ℚ`, rigid
transforms become an abstract type `P` equipped with composition, inversion
and the two distance functions used by the source (translation distance and
quaternion angular distance, both nonnegative as Eigen norms are), and the
kinematics provider becomes explicit functions.  C++ exceptions become
`Except.error` carrying the thrown message; the `int` cast of a nonnegative
double quotient becomes truncating integer division on `ℚ`.
-/

namespace TessPlan

/-! ## Vector arithmetic (Eigen::VectorXd over ℚ) -/

/-- Componentwise vector subtraction, as in Eigen `a - b`. -/
def vsub (a b : List ℚ) : List ℚ := List.zipWith (fun x y => x - y) a b

/-- Componentwise vector addition. -/
def vadd (a b : List ℚ) : List ℚ := List.zipWith (fun x y => x + y) a b

/-- Scalar multiplication of a vector. -/
def vscale (c : ℚ) (v : List ℚ) : List ℚ := v.map (fun x => c * x)

/-- The C++ `int(x)` cast on a double: truncation toward zero, embedded on ℚ. -/
def cppInt (q : ℚ) : ℤ := Int.tdiv q.num q.den

/-! ## Waypoints and instructions (tesseract_command_language data model) -/

/-- Move instruction type tags (MoveInstructionType). -/
inductive MoveType where
  | start
  | linear
  | freespace
deriving DecidableEq, Repr

/-- Plan instruction type tags (PlanInstructionType). -/
inductive PlanType where
  | start
  | linear
  | freespace
deriving DecidableEq, Repr

/-- The waypoint tagged union.  `P` is the abstract rigid-transform type of
a CartesianWaypoint; joint and state waypoints carry joint names and a
position vector; `null` stands for NullWaypoint (and any type outside the
three supported kinds). -/
inductive Waypoint (P : Type) where
  | null
  | cart (pose : P)
  | joint (names : List String) (pos : List ℚ)
  | state (names : List String) (pos : List ℚ)
deriving DecidableEq, Repr

/-- PlanInstruction: a target waypoint, a motion-type tag, profile name,
manipulator info (reduced to the manipulator name) and a description. -/
structure PlanInstr (P : Type) where
  wp : Waypoint P
  ptype : PlanType
  profile : String
  minfo : String
  descr : String
deriving DecidableEq, Repr

/-- MoveInstruction: the dense output unit. -/
structure MoveInstr (P : Type) where
  wp : Waypoint P
  mtype : MoveType
  minfo : String
  descr : String
  profile : String
deriving DecidableEq, Repr

/-- Builds the MoveInstruction emitted by the LVS loops: a StateWaypoint with
the given joint names and values, the move type, and the metadata copied from
the base instruction. -/
def mkMove {P : Type} (names : List String) (v : List ℚ) (mt : MoveType)
    (bi : PlanInstr P) : MoveInstr P :=
  ⟨Waypoint.state names v, mt, bi.minfo, bi.descr, bi.profile⟩

/-- Move type selection in the LVS generators: `base_instruction.isLinear()`,
`isFreespace()`, otherwise a thrown runtime error. -/
def moveTypeOf (pt : PlanType) : Except String MoveType :=
  match pt with
  | PlanType.linear => Except.ok MoveType.linear
  | PlanType.freespace => Except.ok MoveType.freespace
  | PlanType.start => Except.error "LVS Interpolation: Unsupported Move Instruction Type!"

/-! ## The kinematics/environment model used by the LVS generators -/

/-- Abstract model of the collaborators of `lvs_interpolation.cpp`: pose
algebra (Isometry3d composition and inversion), the two Cartesian distances
(which, being Eigen norms, are nonnegative), the Euclidean joint-space norm
(also nonnegative), forward and inverse kinematics, joint names of the two
solvers, the world-to-base transform, the tool transform, and the current
environment state. `invKin p seed` returns `none` when `calcInvKin` reports
failure, otherwise the list of stacked candidate solutions. -/
structure LVSModel (P : Type) where
  mul : P → P → P
  inv : P → P
  transDist : P → P → ℚ
  rotDist : P → P → ℚ
  transDist_nonneg : ∀ a b, 0 ≤ transDist a b
  rotDist_nonneg : ∀ a b, 0 ≤ rotDist a b
  jointNorm : List ℚ → ℚ
  jointNorm_nonneg : ∀ v, 0 ≤ jointNorm v
  fwdJointNames : List String
  invJointNames : List String
  fwdKin : List ℚ → Option P
  invKin : P → List ℚ → Option (List (List ℚ))
  worldToBase : P
  tcp : P
  currentJointValues : List String → List ℚ

variable {P : Type}

/-- The pose `world_to_base * fk * tcp` computed for joint endpoints. -/
def toolFramePose (m : LVSModel P) (q : P) : P :=
  m.mul m.worldToBase (m.mul q m.tcp)

/-- The pose `world_to_base.inverse() * (w * tcp.inverse())` computed for
Cartesian endpoints so they compare against raw forward kinematics. -/
def baseFramePose (m : LVSModel P) (w : P) : P :=
  m.mul (m.inv m.worldToBase) (m.mul w (m.inv m.tcp))

/-- The Cartesian part of the LVS step count:
`max(int(trans_dist / limit) + 1, int(rot_dist / limit) + 1)`. -/
def cartSteps (m : LVSModel P) (p1 p2 : P) (tlvs rlvs : ℚ) : ℤ :=
  max (cppInt (m.transDist p1 p2 / tlvs) + 1) (cppInt (m.rotDist p1 p2 / rlvs) + 1)

/-- Modelled from the spec: the `interpolate(start, end, steps)` routine of
tesseract_motion_planners/core/utils is not under src/.  Per spec section 4.2
it produces a matrix of `steps + 1` columns linearly spaced from `start` to
`end` inclusive, of which the emission loops skip column 0. -/
def interpolate (s e : List ℚ) (steps : ℤ) : List (List ℚ) :=
  (List.range (steps.toNat + 1)).map
    (fun k => vadd s (vscale ((k : ℚ) / (steps : ℚ)) (vsub e s)))

/-! ## The closest-solution scans -/

/-- One pass of the closest-solution scan of the source: the running state is
the current best candidate together with the best distance seen so far
(`none` plays the role of `std::numeric_limits<double>::max()`). -/
def pickClosest {α : Type} (f : α → ℚ) : α × Option ℚ → List α → α × Option ℚ
  | acc, [] => acc
  | (_, none), s :: rest => pickClosest f (s, some (f s)) rest
  | (b, some v), s :: rest =>
      if f s < v then pickClosest f (s, some (f s)) rest
      else pickClosest f (b, some v) rest

/-- The scan of all IK candidate solutions: the best candidate starts as the
first solution with infinite best distance, and every solution is scanned. -/
def selectClosest {α : Type} (dflt : α) (f : α → ℚ) (sols : List α) : α :=
  match sols with
  | [] => dflt
  | s0 :: rest => (pickClosest f (s0, none) (s0 :: rest)).1

/-- The nested scan over the Cartesian product of the two candidate lists
used when both endpoints need IK resolution (row-major order, shared best). -/
def selectClosestPair (jn : List ℚ → ℚ) (s1 s2 : List (List ℚ)) :
    List ℚ × List ℚ :=
  match s1, s2 with
  | a0 :: _, b0 :: _ =>
      (pickClosest (fun ab => jn (vsub ab.2 ab.1)) ((a0, b0), none)
        (List.product s1 s2)).1
  | _, _ => ([], [])

/-! ## LVSInterpolateStateWaypoint, JointWaypoint to JointWaypoint -/

/-- The message thrown when forward kinematics fails. -/
def fkFailMsg : String :=
  "LVSInterpolateStateWaypoint: failed to find forward kinematics solution!"

/-- The message thrown when the two solvers disagree on joint ordering. -/
def jointOrderMsg : String :=
  "Forward and Inverse Kinematic objects joints are not ordered the same!"

/-- The step-count derivation of the JointWaypoint/JointWaypoint variant:
FK on both endpoints, both poses taken to the tool frame, then
`max(max(max(trans_steps, rot_steps), joint_steps), min_steps)`. -/
def lvsStateJJSteps (m : LVSModel P) (s e : List ℚ)
    (slvs tlvs rlvs : ℚ) (min_steps : ℤ) : Except String ℤ :=
  match m.fwdKin s with
  | none => Except.error fkFailMsg
  | some q1 =>
    match m.fwdKin e with
    | none => Except.error fkFailMsg
    | some q2 =>
      let p1 := toolFramePose m q1
      let p2 := toolFramePose m q2
      let joint_dist := m.jointNorm (vsub e s)
      Except.ok (max (max (cartSteps m p1 p2 tlvs rlvs)
        (cppInt (joint_dist / slvs) + 1)) min_steps)

/-- LVSInterpolateStateWaypoint on two joint waypoints: derive the step count,
then linearly interpolate in joint space and emit one MoveInstruction per
column past the first. -/
def lvsStateJJ (m : LVSModel P) (start endJ : List String × List ℚ)
    (bi : PlanInstr P) (slvs tlvs rlvs : ℚ) (min_steps : ℤ) :
    Except String (List (MoveInstr P)) :=
  match lvsStateJJSteps m start.2 endJ.2 slvs tlvs rlvs min_steps with
  | Except.error e => Except.error e
  | Except.ok steps =>
    match moveTypeOf bi.ptype with
    | Except.error e => Except.error e
    | Except.ok mt =>
      Except.ok (((interpolate start.2 endJ.2 steps).drop 1).map
        (fun v => mkMove m.fwdJointNames v mt bi))

/-! ## LVSInterpolateStateWaypoint, JointWaypoint to CartesianWaypoint -/

/-- The step-count derivation of the JointWaypoint/CartesianWaypoint variant:
joint-order check, FK on the start, the Cartesian target taken to the solver
base frame, Cartesian steps, and, only when IK succeeds, the joint-space term
computed from the closest IK solution to the start. -/
def lvsStateJCSteps (m : LVSModel P) (start : List String × List ℚ) (endW : P)
    (slvs tlvs rlvs : ℚ) (min_steps : ℤ) : Except String ℤ :=
  if m.invJointNames ≠ m.fwdJointNames then Except.error jointOrderMsg
  else
    let j1 := start.2
    let p2 := baseFramePose m endW
    match m.fwdKin j1 with
    | none => Except.error fkFailMsg
    | some p1 =>
      let steps0 := cartSteps m p1 p2 tlvs rlvs
      match m.invKin p2 j1 with
      | some sols =>
        let j2f := selectClosest [] (fun sol => m.jointNorm (vsub sol j1)) sols
        Except.ok (max (max steps0
          (cppInt (m.jointNorm (vsub j2f j1) / slvs) + 1)) min_steps)
      | none => Except.ok (max steps0 min_steps)

/-- LVSInterpolateStateWaypoint from a joint start to a Cartesian target.
When IK succeeds the closest solution to the start is interpolated to in
joint space; when IK fails the loop `for (i = 1; i < steps; ++i)` repeats
the start state. -/
def lvsStateJC (m : LVSModel P) (start : List String × List ℚ) (endW : P)
    (bi : PlanInstr P) (slvs tlvs rlvs : ℚ) (min_steps : ℤ) :
    Except String (List (MoveInstr P)) :=
  if m.invJointNames ≠ m.fwdJointNames then Except.error jointOrderMsg
  else
    let j1 := start.2
    let p2 := baseFramePose m endW
    match m.fwdKin j1 with
    | none => Except.error fkFailMsg
    | some p1 =>
      let steps0 := cartSteps m p1 p2 tlvs rlvs
      match m.invKin p2 j1 with
      | some sols =>
        let j2f := selectClosest [] (fun sol => m.jointNorm (vsub sol j1)) sols
        let steps := max (max steps0
          (cppInt (m.jointNorm (vsub j2f j1) / slvs) + 1)) min_steps
        match moveTypeOf bi.ptype with
        | Except.error e => Except.error e
        | Except.ok mt =>
          Except.ok (((interpolate j1 j2f steps).drop 1).map
            (fun v => mkMove m.fwdJointNames v mt bi))
      | none =>
        let steps := max steps0 min_steps
        match moveTypeOf bi.ptype with
        | Except.error e => Except.error e
        | Except.ok mt =>
          Except.ok (List.replicate (steps - 1).toNat
            (mkMove m.fwdJointNames j1 mt bi))

/-! ## LVSInterpolateStateWaypoint, CartesianWaypoint to JointWaypoint -/

/-- LVSInterpolateStateWaypoint from a Cartesian start to a joint target,
the mirror image of the joint-to-Cartesian variant: IK is seeded with the
known end state and the fallback repeats the end state. -/
def lvsStateCJ (m : LVSModel P) (startW : P) (endJ : List String × List ℚ)
    (bi : PlanInstr P) (slvs tlvs rlvs : ℚ) (min_steps : ℤ) :
    Except String (List (MoveInstr P)) :=
  if m.invJointNames ≠ m.fwdJointNames then Except.error jointOrderMsg
  else
    let p1 := baseFramePose m startW
    let j2 := endJ.2
    match m.fwdKin j2 with
    | none => Except.error fkFailMsg
    | some p2 =>
      let steps0 := cartSteps m p1 p2 tlvs rlvs
      match m.invKin p1 j2 with
      | some sols =>
        let j1f := selectClosest [] (fun sol => m.jointNorm (vsub sol j2)) sols
        let steps := max (max steps0
          (cppInt (m.jointNorm (vsub j1f j2) / slvs) + 1)) min_steps
        match moveTypeOf bi.ptype with
        | Except.error e => Except.error e
        | Except.ok mt =>
          Except.ok (((interpolate j1f j2 steps).drop 1).map
            (fun v => mkMove m.fwdJointNames v mt bi))
      | none =>
        let steps := max steps0 min_steps
        match moveTypeOf bi.ptype with
        | Except.error e => Except.error e
        | Except.ok mt =>
          Except.ok (List.replicate (steps - 1).toNat
            (mkMove m.fwdJointNames j2 mt bi))

/-! ## LVSInterpolateStateWaypoint, CartesianWaypoint to CartesianWaypoint -/

/-- LVSInterpolateStateWaypoint on two Cartesian waypoints: both endpoints
are IK-resolved against the environment seed; when both succeed the closest
pair over the Cartesian product of solutions is selected; when only one
succeeds the solution closest to the seed is selected and repeated; when
neither succeeds the seed itself is repeated. -/
def lvsStateCC (m : LVSModel P) (startW endW : P)
    (bi : PlanInstr P) (slvs tlvs rlvs : ℚ) (min_steps : ℤ) :
    Except String (List (MoveInstr P)) :=
  if m.invJointNames ≠ m.fwdJointNames then Except.error jointOrderMsg
  else
    let seed := m.currentJointValues m.invJointNames
    let p1 := baseFramePose m startW
    let r1 := m.invKin p1 seed
    let p2 := baseFramePose m endW
    let r2 := m.invKin p2 seed
    let steps0 := cartSteps m p1 p2 tlvs rlvs
    match r1, r2 with
    | some s1, some s2 =>
      let pr := selectClosestPair m.jointNorm s1 s2
      let steps := max (max steps0
        (cppInt (m.jointNorm (vsub pr.1 pr.2) / slvs) + 1)) min_steps
      match moveTypeOf bi.ptype with
      | Except.error e => Except.error e
      | Except.ok mt =>
        Except.ok (((interpolate pr.1 pr.2 steps).drop 1).map
          (fun v => mkMove m.invJointNames v mt bi))
    | some s1, none =>
      let j1f := selectClosest [] (fun sol => m.jointNorm (vsub seed sol)) s1
      let steps := max steps0 min_steps
      match moveTypeOf bi.ptype with
      | Except.error e => Except.error e
      | Except.ok mt =>
        Except.ok (List.replicate (steps - 1).toNat
          (mkMove m.invJointNames j1f mt bi))
    | none, some s2 =>
      let j2f := selectClosest [] (fun sol => m.jointNorm (vsub seed sol)) s2
      let steps := max steps0 min_steps
      match moveTypeOf bi.ptype with
      | Except.error e => Except.error e
      | Except.ok mt =>
        Except.ok (List.replicate (steps - 1).toNat
          (mkMove m.invJointNames j2f mt bi))
    | none, none =>
      let steps := max steps0 min_steps
      match moveTypeOf bi.ptype with
      | Except.error e => Except.error e
      | Except.ok mt =>
        Except.ok (List.replicate (steps - 1).toNat
          (mkMove m.invJointNames seed mt bi))

/-! ## LVSInterpolateCartStateWaypoint: the unimplemented extension point -/

/-- The message thrown by every Cartesian-target LVS variant (the source
message reads: Not implemented, PR-apostrophe-s are welcome!). -/
def notImplementedMsg : String := "Not implemented, PRs are welcome!"

/-- LVSInterpolateCartStateWaypoint (JointWaypoint, JointWaypoint): throws
unconditionally before any of its dead body executes. -/
def lvsCartJJ (m : LVSModel P) (startJ endJ : List String × List ℚ)
    (bi : PlanInstr P) (slvs tlvs rlvs : ℚ) (min_steps : ℤ) :
    Except String (List (MoveInstr P)) :=
  Except.error notImplementedMsg

/-- LVSInterpolateCartStateWaypoint (JointWaypoint, CartesianWaypoint):
throws unconditionally before any of its dead body executes. -/
def lvsCartJC (m : LVSModel P) (startJ : List String × List ℚ) (endW : P)
    (bi : PlanInstr P) (slvs tlvs rlvs : ℚ) (min_steps : ℤ) :
    Except String (List (MoveInstr P)) :=
  Except.error notImplementedMsg

/-- LVSInterpolateCartStateWaypoint (CartesianWaypoint, JointWaypoint):
throws unconditionally before any of its dead body executes. -/
def lvsCartCJ (m : LVSModel P) (startW : P) (endJ : List String × List ℚ)
    (bi : PlanInstr P) (slvs tlvs rlvs : ℚ) (min_steps : ℤ) :
    Except String (List (MoveInstr P)) :=
  Except.error notImplementedMsg

/-- LVSInterpolateCartStateWaypoint (CartesianWaypoint, CartesianWaypoint):
throws unconditionally before any of its dead body executes. -/
def lvsCartCC (m : LVSModel P) (startW endW : P)
    (bi : PlanInstr P) (slvs tlvs rlvs : ℚ) (min_steps : ℤ) :
    Except String (List (MoveInstr P)) :=
  Except.error notImplementedMsg

/-! ## SimpleMotionPlanner: instruction tree, profiles and orchestrator -/

/-- The type-erased instruction union: plan instructions, composite
instructions (profile, order, manipulator info and children), move
instructions, and anything else (pushed through the tree walk verbatim). -/
inductive Instruction (P : Type) where
  | plan (pi : PlanInstr P)
  | comp (profile : String) (order : Nat) (minfo : String)
      (elems : List (Instruction P))
  | move (mi : MoveInstr P)
  | null

/-- SimplePlannerPlanProfile: the strategy bundle a leaf dispatch calls.
Each strategy receives the two typed waypoints and the leaf plan instruction
and returns the sub-tree pushed into the seed. -/
structure PlanProfile (P : Type) where
  cart_cart_linear : P → P → PlanInstr P → Instruction P
  cart_joint_linear : P → List String × List ℚ → PlanInstr P → Instruction P
  joint_cart_linear : List String × List ℚ → P → PlanInstr P → Instruction P
  joint_joint_linear :
    List String × List ℚ → List String × List ℚ → PlanInstr P → Instruction P
  cart_cart_freespace : P → P → PlanInstr P → Instruction P
  cart_joint_freespace : P → List String × List ℚ → PlanInstr P → Instruction P
  joint_cart_freespace : List String × List ℚ → P → PlanInstr P → Instruction P
  joint_joint_freespace :
    List String × List ℚ → List String × List ℚ → PlanInstr P → Instruction P

/-- The environment of a SimpleMotionPlanner run: the forward solver joint
names, the current environment state, and the resolved profile lookup
(`getProfileString` plus `getProfile` with the default registration, which
can still yield null). -/
structure SPModel (P : Type) where
  jointNames : List String
  currentJointValues : List String → List ℚ
  getProfileOpt : String → Option (PlanProfile P)

/-- The planner request: environment presence, the root composite fields and
children, and the optional explicit start instruction. -/
structure Request (P : Type) where
  envPresent : Bool
  rootProfile : String
  rootOrder : Nat
  rootMinfo : String
  startInstr : Option (PlanInstr P)
  elems : List (Instruction P)

/-- The terminal statuses of SimpleMotionPlannerStatusCategory. -/
inductive PlannerStatus where
  | solutionFound
  | errorInvalidInput
  | failedToFindValidSolution
deriving DecidableEq, Repr

/-- SimpleMotionPlanner::checkUserInput: the environment must be present and
the instruction tree non-empty. -/
def checkUserInput (req : Request P) : Bool :=
  req.envPresent && !req.elems.isEmpty

/-- SimpleMotionPlanner::getStartInstruction: an explicit joint start passes
through as a state waypoint; an explicit Cartesian start is resolved from the
current environment joint state; an explicit state start passes through; any
other explicit start waypoint throws; with no explicit start a state waypoint
is synthesized from the current environment joint state. -/
def getStartInstruction (m : SPModel P) (req : Request P) :
    Except String (MoveInstr P) :=
  match req.startInstr with
  | some si =>
    match si.wp with
    | Waypoint.joint n v =>
      Except.ok ⟨Waypoint.state n v, MoveType.start, si.minfo, "", ""⟩
    | Waypoint.cart _ =>
      Except.ok ⟨Waypoint.state m.jointNames (m.currentJointValues m.jointNames),
        MoveType.start, si.minfo, "", ""⟩
    | Waypoint.state n v =>
      Except.ok ⟨Waypoint.state n v, MoveType.start, si.minfo, "", ""⟩
    | Waypoint.null => Except.error "Unsupported waypoint type!"
  | none =>
    Except.ok ⟨Waypoint.state m.jointNames (m.currentJointValues m.jointNames),
      MoveType.start, "", "", ""⟩

/-- The message thrown by the nine-way dispatch when a waypoint is not one of
the three supported kinds. -/
def unsupportedWpMsg : String :=
  "SimpleMotionPlanner::processCompositeInstruction: Unsupported waypoints provided!"

/-- The nine-way linear dispatch of processCompositeInstruction: state
waypoints are converted to joint waypoints and the four linear strategies
cover all nine ordered combinations; anything else throws. -/
def dispatchLinear (prof : PlanProfile P) (w t : Waypoint P) (p : PlanInstr P) :
    Except String (Instruction P) :=
  match w, t with
  | Waypoint.cart c1, Waypoint.cart c2 =>
      Except.ok (prof.cart_cart_linear c1 c2 p)
  | Waypoint.cart c1, Waypoint.joint n2 v2 =>
      Except.ok (prof.cart_joint_linear c1 (n2, v2) p)
  | Waypoint.joint n1 v1, Waypoint.cart c2 =>
      Except.ok (prof.joint_cart_linear (n1, v1) c2 p)
  | Waypoint.joint n1 v1, Waypoint.joint n2 v2 =>
      Except.ok (prof.joint_joint_linear (n1, v1) (n2, v2) p)
  | Waypoint.state n1 v1, Waypoint.cart c2 =>
      Except.ok (prof.joint_cart_linear (n1, v1) c2 p)
  | Waypoint.state n1 v1, Waypoint.joint n2 v2 =>
      Except.ok (prof.joint_joint_linear (n1, v1) (n2, v2) p)
  | Waypoint.cart c1, Waypoint.state n2 v2 =>
      Except.ok (prof.cart_joint_linear c1 (n2, v2) p)
  | Waypoint.joint n1 v1, Waypoint.state n2 v2 =>
      Except.ok (prof.joint_joint_linear (n1, v1) (n2, v2) p)
  | Waypoint.state n1 v1, Waypoint.state n2 v2 =>
      Except.ok (prof.joint_joint_linear (n1, v1) (n2, v2) p)
  | _, _ => Except.error unsupportedWpMsg

/-- The nine-way freespace dispatch of processCompositeInstruction, parallel
to the linear one. -/
def dispatchFreespace (prof : PlanProfile P) (w t : Waypoint P)
    (p : PlanInstr P) : Except String (Instruction P) :=
  match w, t with
  | Waypoint.cart c1, Waypoint.cart c2 =>
      Except.ok (prof.cart_cart_freespace c1 c2 p)
  | Waypoint.cart c1, Waypoint.joint n2 v2 =>
      Except.ok (prof.cart_joint_freespace c1 (n2, v2) p)
  | Waypoint.joint n1 v1, Waypoint.cart c2 =>
      Except.ok (prof.joint_cart_freespace (n1, v1) c2 p)
  | Waypoint.joint n1 v1, Waypoint.joint n2 v2 =>
      Except.ok (prof.joint_joint_freespace (n1, v1) (n2, v2) p)
  | Waypoint.state n1 v1, Waypoint.cart c2 =>
      Except.ok (prof.joint_cart_freespace (n1, v1) c2 p)
  | Waypoint.state n1 v1, Waypoint.joint n2 v2 =>
      Except.ok (prof.joint_joint_freespace (n1, v1) (n2, v2) p)
  | Waypoint.cart c1, Waypoint.state n2 v2 =>
      Except.ok (prof.cart_joint_freespace c1 (n2, v2) p)
  | Waypoint.joint n1 v1, Waypoint.state n2 v2 =>
      Except.ok (prof.joint_joint_freespace (n1, v1) (n2, v2) p)
  | Waypoint.state n1 v1, Waypoint.state n2 v2 =>
      Except.ok (prof.joint_joint_freespace (n1, v1) (n2, v2) p)
  | _, _ => Except.error unsupportedWpMsg

mutual

/-- One iteration of the processCompositeInstruction loop: a nested composite
is recursively processed and spliced in as one element (propagating the
running waypoint); a plan leaf resolves its profile, dispatches on the pair
of waypoint types, pushes the generated sub-tree as one element and makes
its own target the running waypoint; any other instruction is pushed through
verbatim. -/
def processOne (m : SPModel P) :
    Instruction P → Waypoint P → Except String (Instruction P × Waypoint P)
  | Instruction.comp pr ord mi elems, w =>
    (match processList m elems w with
     | Except.ok (out, w2) => Except.ok (Instruction.comp pr ord mi out, w2)
     | Except.error e => Except.error e)
  | Instruction.plan p, w =>
    (match m.getProfileOpt p.profile with
     | none => Except.error "SimpleMotionPlanner: Invalid start profile"
     | some prof =>
       match p.ptype with
       | PlanType.linear =>
         (match dispatchLinear prof w p.wp p with
          | Except.ok st => Except.ok (st, p.wp)
          | Except.error e => Except.error e)
       | PlanType.freespace =>
         (match dispatchFreespace prof w p.wp p with
          | Except.ok st => Except.ok (st, p.wp)
          | Except.error e => Except.error e)
       | PlanType.start => Except.error "Unsupported!")
  | i, w => Except.ok (i, w)

/-- The loop of processCompositeInstruction over the children of one
composite, threading the running waypoint left to right. -/
def processList (m : SPModel P) :
    List (Instruction P) → Waypoint P →
    Except String (List (Instruction P) × Waypoint P)
  | [], w => Except.ok ([], w)
  | i :: rest, w =>
    (match processOne m i w with
     | Except.ok (o, w2) =>
       (match processList m rest w2 with
        | Except.ok (os, w3) => Except.ok (o :: os, w3)
        | Except.error e => Except.error e)
     | Except.error e => Except.error e)

end

/-- SimpleMotionPlanner::solve.  `Except.error` models a C++ exception
escaping solve; on the `Except.ok` path the pair is the returned status and
the response results (`none` when the results were left untouched).  Note
that `getStartInstruction` is called outside the try/catch block, so its
exception escapes, while a failure inside the tree walk is caught and turned
into ErrorInvalidInput. -/
def solve (m : SPModel P) (req : Request P) :
    Except String (PlannerStatus × Option (MoveInstr P × Instruction P)) :=
  if checkUserInput req = false then
    Except.ok (PlannerStatus.errorInvalidInput, none)
  else
    match getStartInstruction m req with
    | Except.error e => Except.error e
    | Except.ok si =>
      match processList m req.elems si.wp with
      | Except.error _ => Except.ok (PlannerStatus.errorInvalidInput, none)
      | Except.ok (out, _) =>
        Except.ok (PlannerStatus.solutionFound,
          some (si, Instruction.comp req.rootProfile req.rootOrder
            req.rootMinfo out))

/-- A waypoint is supported by the dispatch when it is one of the three
kinds (cartesian, joint, state) the nine-way enumeration handles. -/
def Waypoint.isSupported : Waypoint P → Bool
  | Waypoint.null => false
  | _ => true

/-- One-output-element-per-input-element correspondence of the tree walk:
`StepChain m w elems out w2` states that each element of `elems`, processed
by `processOne` starting from the running waypoint `w`, produced exactly the
corresponding element of `out` in order, threading the running waypoint
through to `w2`. -/
inductive StepChain (m : SPModel P) :
    Waypoint P → List (Instruction P) → List (Instruction P) → Waypoint P →
    Prop where
  | nil (w : Waypoint P) : StepChain m w [] [] w
  | cons {i o : Instruction P} {w w1 w2 : Waypoint P}
      {rest os : List (Instruction P)} :
      processOne m i w = Except.ok (o, w1) →
      StepChain m w1 rest os w2 →
      StepChain m w (i :: rest) (o :: os) w2

/-! ## Concrete instances used to evaluate the theorems on explicit inputs -/

/-- A concrete joint-space norm (sum of absolute values), used only to
instantiate the abstract model on explicit inputs. -/
def l1norm (v : List ℚ) : ℚ := (v.map (fun x => |x|)).sum

/-- A concrete kinematics model over the trivial pose type whose inverse
kinematics always fails. -/
def mNoIK : LVSModel Unit where
  mul := fun _ _ => ()
  inv := fun _ => ()
  transDist := fun _ _ => 0
  rotDist := fun _ _ => 0
  transDist_nonneg := fun _ _ => le_refl 0
  rotDist_nonneg := fun _ _ => le_refl 0
  jointNorm := l1norm
  jointNorm_nonneg := fun v => List.sum_nonneg (by
    intro x hx
    obtain ⟨y, _, rfl⟩ := List.mem_map.mp hx
    exact abs_nonneg y)
  fwdJointNames := ["a"]
  invJointNames := ["a"]
  fwdKin := fun _ => some ()
  invKin := fun _ _ => none
  worldToBase := ()
  tcp := ()
  currentJointValues := fun _ => [0]

/-- A concrete kinematics model over the trivial pose type whose inverse
kinematics returns the two candidate solutions 3 and 1 at distances 3 and 1
from the origin. -/
def mTwoSols : LVSModel Unit :=
  { mNoIK with invKin := fun _ _ => some [[3], [1]] }

/-- A concrete freespace plan instruction used as base instruction. -/
def biFree : PlanInstr Unit :=
  ⟨Waypoint.cart (), PlanType.freespace, "pr", "mi", "de"⟩

/-- A concrete profile whose strategies return a fixed marker instruction. -/
def profU : PlanProfile Unit :=
  ⟨fun _ _ _ => Instruction.null, fun _ _ _ => Instruction.null,
   fun _ _ _ => Instruction.null, fun _ _ _ => Instruction.null,
   fun _ _ _ => Instruction.null, fun _ _ _ => Instruction.null,
   fun _ _ _ => Instruction.null, fun _ _ _ => Instruction.null⟩

/-- A concrete planner environment over the trivial pose type. -/
def mPlanner : SPModel Unit :=
  ⟨["a"], fun _ => [0], fun _ => some profU⟩

/-- A concrete linear plan instruction targeting a joint waypoint. -/
def piLin : PlanInstr Unit :=
  ⟨Waypoint.joint ["a"] [1], PlanType.linear, "p", "m", "d"⟩

/-- A concrete request whose explicit start instruction carries a null
(unsupported) waypoint. -/
def reqNullStart : Request Unit :=
  ⟨true, "root", 0, "ma", some ⟨Waypoint.null, PlanType.start, "p", "m", "d"⟩,
   [Instruction.plan piLin]⟩

/-- A concrete request with no environment. -/
def reqNoEnv : Request Unit :=
  ⟨false, "root", 0, "ma", none, [Instruction.plan piLin]⟩

/-- A concrete well-formed request with no explicit start instruction and a
nested composite child. -/
def reqGood : Request Unit :=
  ⟨true, "root", 0, "ma", none,
   [Instruction.plan piLin,
    Instruction.comp "c" 1 "mb" [Instruction.plan piLin],
    Instruction.move ⟨Waypoint.state ["a"] [1], MoveType.linear, "", "", ""⟩]⟩

/-! ## Helper lemmas -/

/-- On nonnegative arguments the C++ `int` cast agrees with the floor. -/
theorem cppInt_eq_floor (q : ℚ) (h : 0 ≤ q) : cppInt q = ⌊q⌋ := by
  rw [Rat.floor_def, cppInt]
  exact Int.tdiv_eq_ediv (Rat.num_nonneg.mpr h) (Int.ofNat_nonneg q.den)

/-- Invariant of the closest-solution scan once a finite best distance is
held: the result attains its own distance, improves on the entry candidate,
minimizes over the scanned list, and is the entry candidate or a scanned
element. -/
theorem pickClosest_go {α : Type} (f : α → ℚ) (l : List α) :
    ∀ b : α, ∃ b2, pickClosest f (b, some (f b)) l = (b2, some (f b2)) ∧
      f b2 ≤ f b ∧ (∀ x ∈ l, f b2 ≤ f x) ∧ (b2 = b ∨ b2 ∈ l) := by
  induction l with
  | nil =>
    intro b
    exact ⟨b, rfl, le_refl _, by simp, Or.inl rfl⟩
  | cons s rest ih =>
    intro b
    by_cases h : f s < f b
    · obtain ⟨b2, h1, h2, h3, h4⟩ := ih s
      refine ⟨b2, ?_, le_trans h2 (le_of_lt h), ?_, ?_⟩
      · simpa [pickClosest, if_pos h] using h1
      · intro x hx
        rcases List.mem_cons.mp hx with rfl | hx
        · exact h2
        · exact h3 x hx
      · rcases h4 with rfl | h4
        · exact Or.inr (List.mem_cons_self _ _)
        · exact Or.inr (List.mem_cons_of_mem _ h4)
    · obtain ⟨b2, h1, h2, h3, h4⟩ := ih b
      refine ⟨b2, ?_, h2, ?_, ?_⟩
      · simpa [pickClosest, if_neg h] using h1
      · intro x hx
        rcases List.mem_cons.mp hx with rfl | hx
        · exact le_trans h2 (le_of_not_lt h)
        · exact h3 x hx
      · rcases h4 with rfl | h4
        · exact Or.inl rfl
        · exact Or.inr (List.mem_cons_of_mem _ h4)

/-- The scan over a nonempty candidate list selects a member of the list
that minimizes the distance function over the whole list. -/
theorem selectClosest_spec {α : Type} (dflt : α) (f : α → ℚ) (s0 : α)
    (rest : List α) :
    selectClosest dflt f (s0 :: rest) ∈ s0 :: rest ∧
    ∀ x ∈ s0 :: rest, f (selectClosest dflt f (s0 :: rest)) ≤ f x := by
  obtain ⟨b2, h1, h2, h3, h4⟩ := pickClosest_go f rest s0
  have hsel : selectClosest dflt f (s0 :: rest) = b2 := by
    simp only [selectClosest, pickClosest, h1]
  rw [hsel]
  constructor
  · rcases h4 with rfl | h4
    · exact List.mem_cons_self _ _
    · exact List.mem_cons_of_mem _ h4
  · intro x hx
    rcases List.mem_cons.mp hx with rfl | hx
    · exact h2
    · exact h3 x hx

/-- The nested scan over both candidate lists selects a pair of members
minimizing the pairwise distance over the whole Cartesian product. -/
theorem selectClosestPair_spec (jn : List ℚ → ℚ) (a0 b0 : List ℚ)
    (r1 r2 : List (List ℚ)) :
    ((selectClosestPair jn (a0 :: r1) (b0 :: r2)).1 ∈ a0 :: r1 ∧
     (selectClosestPair jn (a0 :: r1) (b0 :: r2)).2 ∈ b0 :: r2) ∧
    ∀ x ∈ a0 :: r1, ∀ y ∈ b0 :: r2,
      jn (vsub (selectClosestPair jn (a0 :: r1) (b0 :: r2)).2
          (selectClosestPair jn (a0 :: r1) (b0 :: r2)).1) ≤ jn (vsub y x) := by
  have hprod : List.product (a0 :: r1) (b0 :: r2) =
      (a0, b0) :: (r2.map (fun b => (a0, b)) ++ List.product r1 (b0 :: r2)) :=
    rfl
  obtain ⟨b2, h1, h2, h3, h4⟩ :=
    pickClosest_go (fun ab => jn (vsub ab.2 ab.1))
      (r2.map (fun b => (a0, b)) ++ List.product r1 (b0 :: r2)) (a0, b0)
  simp only at h1 h2
  have hsel : selectClosestPair jn (a0 :: r1) (b0 :: r2) = b2 := by
    show (pickClosest (fun ab => jn (vsub ab.2 ab.1)) ((a0, b0), none)
        (List.product (a0 :: r1) (b0 :: r2))).1 = b2
    rw [hprod]
    show (pickClosest (fun ab => jn (vsub ab.2 ab.1))
        ((a0, b0), some (jn (vsub b0 a0)))
        (r2.map (fun b => (a0, b)) ++ List.product r1 (b0 :: r2))).1 = b2
    rw [h1]
  have hmem : b2 ∈ List.product (a0 :: r1) (b0 :: r2) := by
    rw [hprod]
    rcases h4 with rfl | h4
    · exact List.mem_cons_self _ _
    · exact List.mem_cons_of_mem _ h4
  have hmin : ∀ z ∈ List.product (a0 :: r1) (b0 :: r2),
      jn (vsub b2.2 b2.1) ≤ jn (vsub z.2 z.1) := by
    intro z hz
    rw [hprod] at hz
    rcases List.mem_cons.mp hz with rfl | hz
    · exact h2
    · exact h3 z hz
  rw [hsel]
  constructor
  · have := List.mem_product.mp hmem
    exact ⟨this.1, this.2⟩
  · intro x hx y hy
    exact hmin (x, y) (List.mem_product.mpr ⟨hx, hy⟩)

/-- Each per-axis step-count term is antitone in its limit. -/
theorem stepTerm_antitone (d l l2 : ℚ) (hd : 0 ≤ d) (hl : 0 < l)
    (hll : l ≤ l2) : cppInt (d / l2) + 1 ≤ cppInt (d / l) + 1 := by
  have hl2 : 0 < l2 := lt_of_lt_of_le hl hll
  rw [cppInt_eq_floor _ (div_nonneg hd hl2.le),
    cppInt_eq_floor _ (div_nonneg hd hl.le)]
  have hdl : d / l2 ≤ d / l := by gcongr
  exact add_le_add_right (Int.floor_le_floor hdl) 1

/-- The Cartesian part of the LVS step count is antitone in both limits. -/
theorem cartSteps_antitone (m : LVSModel P) (p1 p2 : P)
    (tlvs rlvs tlvs2 rlvs2 : ℚ) (ht : 0 < tlvs) (ht2 : tlvs ≤ tlvs2)
    (hr : 0 < rlvs) (hr2 : rlvs ≤ rlvs2) :
    cartSteps m p1 p2 tlvs2 rlvs2 ≤ cartSteps m p1 p2 tlvs rlvs :=
  max_le_max
    (stepTerm_antitone _ _ _ (m.transDist_nonneg p1 p2) ht ht2)
    (stepTerm_antitone _ _ _ (m.rotDist_nonneg p1 p2) hr hr2)

/-! ## Claim theorems -/

/-- C7: every call to any of the four LVSInterpolateCartStateWaypoint
variants (the Cartesian-target LVS extension point) fails immediately with
the not-implemented runtime error; no call returns a composite, partial or
otherwise. -/
theorem claim7_cart_variants_throw :
    ∀ (m : LVSModel P) (a b : List String × List ℚ) (c d : P)
      (bi : PlanInstr P) (slvs tlvs rlvs : ℚ) (min_steps : ℤ),
    lvsCartJJ m a b bi slvs tlvs rlvs min_steps =
      Except.error notImplementedMsg ∧
    lvsCartJC m a c bi slvs tlvs rlvs min_steps =
      Except.error notImplementedMsg ∧
    lvsCartCJ m c b bi slvs tlvs rlvs min_steps =
      Except.error notImplementedMsg ∧
    lvsCartCC m c d bi slvs tlvs rlvs min_steps =
      Except.error notImplementedMsg :=
  fun _ _ _ _ _ _ _ _ _ _ => ⟨rfl, rfl, rfl, rfl⟩

/-- C3: for the LVS generator on two joint waypoints the derived step count
equals the maximum of the three floor-quotient axis counts and the minimum
step count, where the joint distance is the norm of the joint delta and the
compared poses are the FK poses of the endpoints with the base and tool
transforms applied to both. -/
theorem claim3_jj_step_count (m : LVSModel P) (s e : List ℚ) (q1 q2 : P)
    (slvs tlvs rlvs : ℚ) (min_steps : ℤ)
    (hf1 : m.fwdKin s = some q1) (hf2 : m.fwdKin e = some q2)
    (hs : 0 < slvs) (ht : 0 < tlvs) (hr : 0 < rlvs) :
    lvsStateJJSteps m s e slvs tlvs rlvs min_steps =
      Except.ok (max (max (max
        (⌊m.transDist (toolFramePose m q1) (toolFramePose m q2) / tlvs⌋ + 1)
        (⌊m.rotDist (toolFramePose m q1) (toolFramePose m q2) / rlvs⌋ + 1))
        (⌊m.jointNorm (vsub e s) / slvs⌋ + 1)) min_steps) := by
  simp only [lvsStateJJSteps, hf1, hf2, cartSteps]
  rw [cppInt_eq_floor _ (div_nonneg (m.transDist_nonneg _ _) ht.le),
    cppInt_eq_floor _ (div_nonneg (m.rotDist_nonneg _ _) hr.le),
    cppInt_eq_floor _ (div_nonneg (m.jointNorm_nonneg _) hs.le)]

/-- C3 witness: the step-count formula evaluated on a concrete model. -/
theorem claim3_witness :
    lvsStateJJSteps mNoIK [0] [1] 1 1 1 2 =
      Except.ok (max (max (max
        (⌊mNoIK.transDist (toolFramePose mNoIK ()) (toolFramePose mNoIK ()) / 1⌋ + 1)
        (⌊mNoIK.rotDist (toolFramePose mNoIK ()) (toolFramePose mNoIK ()) / 1⌋ + 1))
        (⌊mNoIK.jointNorm (vsub [1] [0]) / 1⌋ + 1)) 2) :=
  claim3_jj_step_count mNoIK [0] [1] () () 1 1 1 2 rfl rfl
    (by norm_num) (by norm_num) (by norm_num)

/-- C4: the IK disambiguation rule.  The single-endpoint scan used by the
joint-to-Cartesian generators selects a candidate minimizing joint-space
distance to the known endpoint; the pair scan used when both endpoints need
resolution selects a pair minimizing pairwise distance over the Cartesian
product; the seed scan used when only one Cartesian endpoint resolves
selects a candidate minimizing distance to the environment seed. -/
theorem claim4_ik_disambiguation (m : LVSModel P) (j1 seed s0 a0 b0 : List ℚ)
    (rest r1 r2 : List (List ℚ)) :
    (selectClosest [] (fun sol => m.jointNorm (vsub sol j1)) (s0 :: rest) ∈
        s0 :: rest ∧
     ∀ sol ∈ s0 :: rest,
       m.jointNorm (vsub
         (selectClosest [] (fun sol => m.jointNorm (vsub sol j1)) (s0 :: rest))
         j1) ≤ m.jointNorm (vsub sol j1)) ∧
    (((selectClosestPair m.jointNorm (a0 :: r1) (b0 :: r2)).1 ∈ a0 :: r1 ∧
      (selectClosestPair m.jointNorm (a0 :: r1) (b0 :: r2)).2 ∈ b0 :: r2) ∧
     ∀ x ∈ a0 :: r1, ∀ y ∈ b0 :: r2,
       m.jointNorm (vsub (selectClosestPair m.jointNorm (a0 :: r1) (b0 :: r2)).2
         (selectClosestPair m.jointNorm (a0 :: r1) (b0 :: r2)).1) ≤
       m.jointNorm (vsub y x)) ∧
    (selectClosest [] (fun sol => m.jointNorm (vsub seed sol)) (s0 :: rest) ∈
        s0 :: rest ∧
     ∀ sol ∈ s0 :: rest,
       m.jointNorm (vsub seed
         (selectClosest [] (fun sol => m.jointNorm (vsub seed sol))
           (s0 :: rest))) ≤ m.jointNorm (vsub seed sol)) :=
  ⟨selectClosest_spec [] (fun sol => m.jointNorm (vsub sol j1)) s0 rest,
   selectClosestPair_spec m.jointNorm a0 b0 r1 r2,
   selectClosest_spec [] (fun sol => m.jointNorm (vsub seed sol)) s0 rest⟩

/-- C4 witness: with candidate solutions 3 and 1 and known start 0, the
selected solution is at least as close as the candidate 3. -/
theorem claim4_witness :
    mNoIK.jointNorm (vsub
      (selectClosest [] (fun sol => mNoIK.jointNorm (vsub sol [0])) [[3], [1]])
      [0]) ≤ mNoIK.jointNorm (vsub [3] [0]) :=
  (claim4_ik_disambiguation mNoIK [0] [0] [3] [3] [3] [[1]] [[1]] [[1]]).1.2
    [3] (by simp)

/-- C10: under the precondition that the running waypoint and the target
waypoint are each of a supported kind, both the linear and the freespace
nine-way dispatch succeed, so their unsupported-waypoints error branches are
unreachable. -/
theorem claim10_dispatch_total (prof : PlanProfile P) (w t : Waypoint P)
    (p : PlanInstr P) (hw : w.isSupported = true) (ht : t.isSupported = true) :
    (∃ r, dispatchLinear prof w t p = Except.ok r) ∧
    (∃ r, dispatchFreespace prof w t p = Except.ok r) := by
  cases w <;> cases t <;>
    simp_all [Waypoint.isSupported, dispatchLinear, dispatchFreespace]

/-- C10 witness: the dispatch applied to a concrete supported pair. -/
theorem claim10_witness :
    (∃ r, dispatchLinear profU (Waypoint.cart ()) (Waypoint.joint ["a"] [1])
      piLin = Except.ok r) ∧
    (∃ r, dispatchFreespace profU (Waypoint.cart ()) (Waypoint.joint ["a"] [1])
      piLin = Except.ok r) :=
  claim10_dispatch_total profU (Waypoint.cart ()) (Waypoint.joint ["a"] [1])
    piLin rfl rfl

/-- C8: with no explicit start instruction the synthesized start waypoint is
a state waypoint built from the current environment joint values over the
solver joint names; an explicit Cartesian start is resolved the same way (no
inverse kinematics is available to this routine at all); an explicit joint
start passes through as a state waypoint. -/
theorem claim8_start_instruction (m : SPModel P) (req : Request P)
    (si : PlanInstr P) :
    (req.startInstr = none →
      getStartInstruction m req = Except.ok
        ⟨Waypoint.state m.jointNames (m.currentJointValues m.jointNames),
         MoveType.start, "", "", ""⟩) ∧
    (req.startInstr = some si →
      (∀ c, si.wp = Waypoint.cart c →
        getStartInstruction m req = Except.ok
          ⟨Waypoint.state m.jointNames (m.currentJointValues m.jointNames),
           MoveType.start, si.minfo, "", ""⟩) ∧
      (∀ n v, si.wp = Waypoint.joint n v →
        getStartInstruction m req = Except.ok
          ⟨Waypoint.state n v, MoveType.start, si.minfo, "", ""⟩)) := by
  refine ⟨fun h => ?_, fun h => ⟨fun c hc => ?_, fun n v hv => ?_⟩⟩
  · simp [getStartInstruction, h]
  · simp [getStartInstruction, h, hc]
  · simp [getStartInstruction, h, hv]

/-- C8 witness: the synthesized start of a concrete request with no explicit
start instruction. -/
theorem claim8_witness :
    getStartInstruction mPlanner reqGood = Except.ok
      ⟨Waypoint.state mPlanner.jointNames
        (mPlanner.currentJointValues mPlanner.jointNames),
       MoveType.start, "", "", ""⟩ :=
  (claim8_start_instruction mPlanner reqGood piLin).1 rfl

/-- C5: with endpoints held fixed the derived LVS step count is antitone in
the three longest-valid-segment limits, for both the joint-to-joint and the
joint-to-Cartesian step-count derivations: enlarging any limit never
enlarges the count, and shrinking any limit never shrinks it. -/
theorem claim5_step_count_antitone (m : LVSModel P) (s e : List ℚ)
    (start : List String × List ℚ) (endW : P)
    (slvs tlvs rlvs slvs2 tlvs2 rlvs2 : ℚ) (min_steps n n2 : ℤ)
    (hs : 0 < slvs) (hs2 : slvs ≤ slvs2) (ht : 0 < tlvs) (ht2 : tlvs ≤ tlvs2)
    (hr : 0 < rlvs) (hr2 : rlvs ≤ rlvs2) :
    (lvsStateJJSteps m s e slvs tlvs rlvs min_steps = Except.ok n →
     lvsStateJJSteps m s e slvs2 tlvs2 rlvs2 min_steps = Except.ok n2 →
     n2 ≤ n) ∧
    (lvsStateJCSteps m start endW slvs tlvs rlvs min_steps = Except.ok n →
     lvsStateJCSteps m start endW slvs2 tlvs2 rlvs2 min_steps = Except.ok n2 →
     n2 ≤ n) := by
  constructor
  · intro h1 h2
    simp only [lvsStateJJSteps] at h1 h2
    cases hf1 : m.fwdKin s with
    | none => rw [hf1] at h1; exact absurd h1 (by simp)
    | some q1 =>
      rw [hf1] at h1 h2
      cases hf2 : m.fwdKin e with
      | none => rw [hf2] at h1; exact absurd h1 (by simp)
      | some q2 =>
        rw [hf2] at h1 h2
        simp only [Except.ok.injEq] at h1 h2
        subst h1
        subst h2
        exact max_le_max
          (max_le_max
            (cartSteps_antitone m _ _ _ _ _ _ ht ht2 hr hr2)
            (stepTerm_antitone _ _ _ (m.jointNorm_nonneg _) hs hs2))
          (le_refl min_steps)
  · intro h1 h2
    simp only [lvsStateJCSteps] at h1 h2
    by_cases hnames : m.invJointNames ≠ m.fwdJointNames
    · rw [if_pos hnames] at h1; exact absurd h1 (by simp)
    · rw [if_neg hnames] at h1 h2
      cases hf1 : m.fwdKin start.2 with
      | none => rw [hf1] at h1; exact absurd h1 (by simp)
      | some p1 =>
        rw [hf1] at h1 h2
        cases hik : m.invKin (baseFramePose m endW) start.2 with
        | none =>
          rw [hik] at h1 h2
          simp only [Except.ok.injEq] at h1 h2
          subst h1
          subst h2
          exact max_le_max
            (cartSteps_antitone m _ _ _ _ _ _ ht ht2 hr hr2)
            (le_refl min_steps)
        | some sols =>
          rw [hik] at h1 h2
          simp only [Except.ok.injEq] at h1 h2
          subst h1
          subst h2
          exact max_le_max
            (max_le_max
              (cartSteps_antitone m _ _ _ _ _ _ ht ht2 hr hr2)
              (stepTerm_antitone _ _ _ (m.jointNorm_nonneg _) hs hs2))
            (le_refl min_steps)

/-- C5 witness: the antitonicity applied to concrete limits on the concrete
model. -/
theorem claim5_witness : (2 : ℤ) ≤ 2 :=
  (claim5_step_count_antitone mNoIK [0] [1] (["a"], [0]) () 1 1 1 2 2 2 2 2 2
      (by norm_num) (by norm_num) (by norm_num) (by norm_num) (by norm_num)
      (by norm_num)).1
    (by norm_num [lvsStateJJSteps, cartSteps, cppInt, toolFramePose, mNoIK,
      l1norm, vsub])
    (by norm_num [lvsStateJJSteps, cartSteps, cppInt, toolFramePose, mNoIK,
      l1norm, vsub]; decide)

/-- C6: solve returns ErrorInvalidInput with untouched results when the
environment is absent or the instruction tree is empty, and any status it
returns is SolutionFound or ErrorInvalidInput, never
FailedToFindValidSolution. -/
theorem claim6_solve_status (m : SPModel P) (req : Request P) :
    ((req.envPresent = false ∨ req.elems = []) →
      solve m req = Except.ok (PlannerStatus.errorInvalidInput, none)) ∧
    ∀ s r, solve m req = Except.ok (s, r) →
      s = PlannerStatus.solutionFound ∨ s = PlannerStatus.errorInvalidInput := by
  constructor
  · intro h
    have hc : checkUserInput req = false := by
      rcases h with h | h
      · simp [checkUserInput, h]
      · simp [checkUserInput, h]
    simp [solve, hc]
  · intro s r h
    simp only [solve] at h
    split at h
    · simp only [Except.ok.injEq, Prod.mk.injEq] at h
      exact Or.inr h.1.symm
    · split at h
      · exact absurd h (by simp)
      · split at h
        · simp only [Except.ok.injEq, Prod.mk.injEq] at h
          exact Or.inr h.1.symm
        · simp only [Except.ok.injEq, Prod.mk.injEq] at h
          exact Or.inl h.1.symm

/-- C6 witness: solve on a concrete request with no environment. -/
theorem claim6_witness :
    solve mPlanner reqNoEnv =
      Except.ok (PlannerStatus.errorInvalidInput, none) :=
  (claim6_solve_status mPlanner reqNoEnv).1 (Or.inl rfl)

/-- C1 counterexample: on a concrete request whose explicit start
instruction carries an unsupported (null) waypoint, solve does not return an
ErrorInvalidInput status; the runtime error thrown by getStartInstruction
escapes the top-level solve boundary because the call sits outside the
try/catch block. -/
theorem claim1_counterexample :
    solve mPlanner reqNullStart = Except.error "Unsupported waypoint type!" :=
  rfl

/-- C1 amended: if the request passes the user-input check and its explicit
start instruction carries a waypoint that is not joint, cartesian, or state,
then solve propagates the runtime error past the top-level boundary instead
of returning a status. -/
theorem claim1_amended (m : SPModel P) (req : Request P) (si : PlanInstr P)
    (henv : req.envPresent = true) (hne : req.elems ≠ [])
    (hsi : req.startInstr = some si) (hwp : si.wp = Waypoint.null) :
    solve m req = Except.error "Unsupported waypoint type!" := by
  have hc : ¬(checkUserInput req = false) := by
    simp [checkUserInput, henv, List.isEmpty_iff, hne]
  have hg : getStartInstruction m req =
      Except.error "Unsupported waypoint type!" := by
    simp [getStartInstruction, hsi, hwp]
  simp [solve, hc, hg]

/-- C1 amended witness: the amended statement applied to the concrete
request with a null start waypoint. -/
theorem claim1_amended_witness :
    solve mPlanner reqNullStart = Except.error "Unsupported waypoint type!" :=
  claim1_amended mPlanner reqNullStart
    ⟨Waypoint.null, PlanType.start, "p", "m", "d"⟩ rfl (by simp [reqNullStart])
    rfl rfl

/-- C9: a successful tree walk produces exactly one output element per input
element, in sibling order: each input element is mapped by `processOne` (a
recursively processed composite for a composite child, the generated
sub-tree for a plan leaf, the element itself otherwise) to the output
element at the same position, threading the running waypoint. -/
theorem claim9_tree_shape (m : SPModel P) (elems : List (Instruction P))
    (w : Waypoint P) (out : List (Instruction P)) (w2 : Waypoint P)
    (h : processList m elems w = Except.ok (out, w2)) :
    out.length = elems.length ∧ StepChain m w elems out w2 := by
  induction elems generalizing w out w2 with
  | nil =>
    simp only [processList, Except.ok.injEq, Prod.mk.injEq] at h
    obtain ⟨h1, h2⟩ := h
    rw [← h1, ← h2]
    exact ⟨rfl, StepChain.nil w⟩
  | cons i rest ih =>
    simp only [processList] at h
    cases h1 : processOne m i w with
    | error e => rw [h1] at h; exact absurd h (by simp)
    | ok p =>
      obtain ⟨o, w1⟩ := p
      rw [h1] at h
      dsimp only at h
      cases h2 : processList m rest w1 with
      | error e => rw [h2] at h; exact absurd h (by simp)
      | ok q =>
        obtain ⟨os, w3⟩ := q
        rw [h2] at h
        simp only [Except.ok.injEq, Prod.mk.injEq] at h
        obtain ⟨ho, hw⟩ := h
        obtain ⟨hl, hchain⟩ := ih w1 os w3 h2
        rw [← ho, ← hw]
        exact ⟨by simp [hl], StepChain.cons h1 hchain⟩

/-- C9 witness: the correspondence evaluated on a concrete tree with a plan
leaf, a nested composite and a pass-through instruction. -/
theorem claim9_witness :
    ([Instruction.null, Instruction.comp "c" 1 "mb" [Instruction.null],
      Instruction.move ⟨Waypoint.state ["a"] [1], MoveType.linear, "", "", ""⟩]
      : List (Instruction Unit)).length = reqGood.elems.length ∧
    StepChain mPlanner (Waypoint.state ["a"] [0]) reqGood.elems
      [Instruction.null, Instruction.comp "c" 1 "mb" [Instruction.null],
       Instruction.move ⟨Waypoint.state ["a"] [1], MoveType.linear, "", "", ""⟩]
      (Waypoint.joint ["a"] [1]) :=
  claim9_tree_shape mPlanner reqGood.elems (Waypoint.state ["a"] [0]) _ _ rfl

/-- C2 counterexample: on a concrete model whose inverse kinematics fails,
the derived step count is 2 but the joint-to-Cartesian generator emits only
1 MoveInstruction, not the derived step count the success branch would
produce. -/
theorem claim2_counterexample :
    lvsStateJCSteps mNoIK (["a"], [0]) () 1 1 1 2 = Except.ok 2 ∧
    (lvsStateJC mNoIK (["a"], [0]) () biFree 1 1 1 2).map List.length =
      Except.ok 1 := by
  constructor
  · norm_num [lvsStateJCSteps, cartSteps, cppInt, baseFramePose, mNoIK]
  · norm_num [lvsStateJC, cartSteps, cppInt, baseFramePose, mNoIK, biFree,
      moveTypeOf, mkMove, Except.map]

/-- C2 amended: when inverse kinematics returns no solution for an endpoint,
the emitted sequence repeats the fallback joint vector (the known endpoint,
the surviving resolved endpoint, or the environment seed), but its length is
one less than the derived step count (the failure loops run from 1 to steps
exclusive), not the derived step count itself. -/
theorem claim2_amended (m : LVSModel P) (start : List String × List ℚ)
    (startW endW : P) (bi : PlanInstr P) (slvs tlvs rlvs : ℚ)
    (min_steps n : ℤ) (mt : MoveType) (s1 s2 : List (List ℚ))
    (hmt : moveTypeOf bi.ptype = Except.ok mt) :
    (m.invKin (baseFramePose m endW) start.2 = none →
     lvsStateJCSteps m start endW slvs tlvs rlvs min_steps = Except.ok n →
     lvsStateJC m start endW bi slvs tlvs rlvs min_steps =
       Except.ok (List.replicate (n - 1).toNat
         (mkMove m.fwdJointNames start.2 mt bi))) ∧
    (m.invJointNames = m.fwdJointNames →
     m.invKin (baseFramePose m startW)
       (m.currentJointValues m.invJointNames) = none →
     m.invKin (baseFramePose m endW)
       (m.currentJointValues m.invJointNames) = none →
     lvsStateCC m startW endW bi slvs tlvs rlvs min_steps =
       Except.ok (List.replicate
         ((max (cartSteps m (baseFramePose m startW) (baseFramePose m endW)
           tlvs rlvs) min_steps) - 1).toNat
         (mkMove m.invJointNames (m.currentJointValues m.invJointNames) mt
           bi))) ∧
    (m.invJointNames = m.fwdJointNames →
     m.invKin (baseFramePose m startW)
       (m.currentJointValues m.invJointNames) = some s1 →
     m.invKin (baseFramePose m endW)
       (m.currentJointValues m.invJointNames) = none →
     lvsStateCC m startW endW bi slvs tlvs rlvs min_steps =
       Except.ok (List.replicate
         ((max (cartSteps m (baseFramePose m startW) (baseFramePose m endW)
           tlvs rlvs) min_steps) - 1).toNat
         (mkMove m.invJointNames
           (selectClosest [] (fun sol => m.jointNorm
             (vsub (m.currentJointValues m.invJointNames) sol)) s1)
           mt bi))) ∧
    (m.invJointNames = m.fwdJointNames →
     m.invKin (baseFramePose m startW)
       (m.currentJointValues m.invJointNames) = none →
     m.invKin (baseFramePose m endW)
       (m.currentJointValues m.invJointNames) = some s2 →
     lvsStateCC m startW endW bi slvs tlvs rlvs min_steps =
       Except.ok (List.replicate
         ((max (cartSteps m (baseFramePose m startW) (baseFramePose m endW)
           tlvs rlvs) min_steps) - 1).toNat
         (mkMove m.invJointNames
           (selectClosest [] (fun sol => m.jointNorm
             (vsub (m.currentJointValues m.invJointNames) sol)) s2)
           mt bi))) := by
  refine ⟨fun hik hsteps => ?_, fun hne hik1 hik2 => ?_,
    fun hne hik1 hik2 => ?_, fun hne hik1 hik2 => ?_⟩
  · simp only [lvsStateJCSteps] at hsteps
    by_cases hnames : m.invJointNames ≠ m.fwdJointNames
    · rw [if_pos hnames] at hsteps; exact absurd hsteps (by simp)
    · rw [if_neg hnames] at hsteps
      cases hf : m.fwdKin start.2 with
      | none => rw [hf] at hsteps; exact absurd hsteps (by simp)
      | some p1 =>
        rw [hf, hik] at hsteps
        simp only [Except.ok.injEq] at hsteps
        simp only [lvsStateJC, if_neg hnames, hf, hik, hmt]
        rw [hsteps]
  · have hnames : ¬(m.invJointNames ≠ m.fwdJointNames) := by simp [hne]
    simp only [lvsStateCC, if_neg hnames, hik1, hik2, hmt]
  · have hnames : ¬(m.invJointNames ≠ m.fwdJointNames) := by simp [hne]
    simp only [lvsStateCC, if_neg hnames, hik1, hik2, hmt]
  · have hnames : ¬(m.invJointNames ≠ m.fwdJointNames) := by simp [hne]
    simp only [lvsStateCC, if_neg hnames, hik1, hik2, hmt]

/-- C2 amended witness: the degenerate-IK emission of the joint-to-Cartesian
generator on the concrete failing model. -/
theorem claim2_amended_witness :
    lvsStateJC mNoIK (["a"], [0]) () biFree 1 1 1 2 =
      Except.ok (List.replicate ((2 : ℤ) - 1).toNat
        (mkMove mNoIK.fwdJointNames [0] MoveType.freespace biFree)) :=
  (claim2_amended mNoIK (["a"], [0]) () () biFree 1 1 1 2 2
      MoveType.freespace [] [] rfl).1 rfl
    (by norm_num [lvsStateJCSteps, cartSteps, cppInt, baseFramePose, mNoIK])

end TessPlan
